import Mathlib

/-!
Shallow embedding of `src/handle/template.rs` (jetporch): the task-field
accessor layer (`Template`) that renders possibly-templated raw field
values, screens them, coerces them to typed values, and short-circuits
in syntax-only (dry-run) mode.

External collaborators (template evaluator, conditional evaluator,
screening predicates, local filesystem) are modelled as function fields
of an `Env` record supplied at each call, mirroring how the Rust code
reaches them through the shared run-state/context handles at call time.
A failure produced by `response.is_failed(request, msg)` is modelled as
`Except.error msg`: accessors return `Except String α`, the error being
the failure message.
-/

set_option autoImplicit false

namespace Jetporch

/-- Which variable-precedence ruleset the evaluator applies
(`BlendTarget` in the source). -/
inductive BlendTarget where
  | NotTemplateModule
  | TemplateModule
deriving DecidableEq, Repr

/-- Call-time view of the external collaborators reached through the
run-state/context handles: the execution-mode flag read from the
visitor, `render_template`, `test_cond`, `screen_path`,
`screen_general_input_strict`, and the local filesystem regular-file
check `Path::is_file`. -/
structure Env where
  visitorSyntaxOnly : Bool
  render : String → BlendTarget → Except String String
  testCondEval : String → Except String Bool
  screenPath : String → Except String String
  screenGeneralInputStrict : String → Except String String
  isFile : String → Bool

/-- The accessor instance (`struct Template`): the run-state, host and
response handles become the call-time `Env`; the one piece of state the
struct snapshots at construction is the `syntax_only` flag. -/
structure Template where
  syntaxOnly : Bool
deriving DecidableEq, Repr

/-- Constructor `Template::new`: reads `visitor.is_syntax_only()` once
and stores it in the `syntax_only` field. -/
def Template.new (env : Env) : Template :=
  { syntaxOnly := env.visitorSyntaxOnly }

/-- Accessor `is_syntax`: returns the snapshotted flag. -/
def is_syntax (t : Template) : Bool :=
  t.syntaxOnly

/-- True when the character list contains the two-character template-open
marker (two consecutive left braces), as `input.find("\x7b\x7b").is_some()`
computes on the underlying text. -/
def containsMarkerList : List Char → Bool
  | [] => false
  | [_] => false
  | c :: c2 :: rest =>
    (c == Char.ofNat 123 && c2 == Char.ofNat 123) || containsMarkerList (c2 :: rest)

/-- Source `contains_vars`: the raw value contains the template-open marker. -/
def contains_vars (input : String) : Bool :=
  containsMarkerList input.data

/-- Source `is_syntax_skip_eval`: skip real evaluation iff the value
contains the marker and the run is syntax-only. -/
def is_syntax_skip_eval (t : Template) (template : String) : Bool :=
  contains_vars template && is_syntax t

/-- Source `is_syntax_skip_eval_option`: an absent value never skips; a
present one skips under the same rule as `is_syntax_skip_eval`. -/
def is_syntax_skip_eval_option (t : Template) (template : Option String) : Bool :=
  match template with
  | none => false
  | some template2 => contains_vars template2 && is_syntax t

/-- Source `unwrap_string_result`: an evaluator error becomes a
request-scoped failure carrying the evaluator's message. -/
def unwrap_string_result (str_result : Except String String) : Except String String :=
  match str_result with
  | .ok x => .ok x
  | .error y => .error y

/-- Source `template_unsafe_internal`: gate, render, reject a
successful-but-empty render, unwrap. -/
def template_unsafe_internal (t : Template) (env : Env) (_field : String)
    (template : String) (blend_target : BlendTarget) : Except String String :=
  if is_syntax_skip_eval t template then .ok "" else
  let result := env.render template blend_target
  match result with
  | .ok result_ok =>
    if result_ok = "" then .error "evaluated to empty string"
    else unwrap_string_result (.ok result_ok)
  | .error y => unwrap_string_result (.error y)

/-- Source `string_for_template_module_use_only`: unscreened render with
blend target `TemplateModule`. -/
def string_for_template_module_use_only (t : Template) (env : Env)
    (field template : String) : Except String String :=
  template_unsafe_internal t env field template BlendTarget.TemplateModule

/-- Source accessor rendering without general-input screening, blend
target `NotTemplateModule`. -/
def string_unsafe (t : Template) (env : Env) (field template : String) :
    Except String String :=
  template_unsafe_internal t env field template BlendTarget.NotTemplateModule

/-- Source `string`: gate, render unscreened, then general-input
screening; a screening failure is wrapped with the field name. -/
def string (t : Template) (env : Env) (field template : String) :
    Except String String :=
  if is_syntax_skip_eval t template then .ok "" else
  match string_unsafe t env field template with
  | .ok x =>
    match env.screenGeneralInputStrict x with
    | .ok y => .ok y
    | .error z => .error ("field " ++ field ++ ", " ++ z)
  | .error y => .error y

/-- True when the character list contains the space character (U+0020),
as `input.find(" ").is_some()` computes on the text. -/
def containsSpaceList : List Char → Bool
  | [] => false
  | c :: rest => c == Char.ofNat 32 || containsSpaceList rest

/-- Source `has_spaces`. -/
def has_spaces (input : String) : Bool :=
  containsSpaceList input.data

/-- Source `string_no_spaces`: `string`, then reject any value holding a
space character. -/
def string_no_spaces (t : Template) (env : Env) (field template : String) :
    Except String String :=
  match string t env field template with
  | .error e => .error e
  | .ok value =>
    if has_spaces value then
      .error ("field (" ++ field ++ "): spaces are not allowed")
    else .ok value

/-- Source `path`: gate, render (no empty-render check), then path
screening; no filesystem access. -/
def path (t : Template) (env : Env) (field template : String) :
    Except String String :=
  if is_syntax_skip_eval t template then .ok "" else
  match unwrap_string_result (env.render template BlendTarget.NotTemplateModule) with
  | .error e => .error e
  | .ok result2 =>
    match env.screenPath result2 with
    | .ok x => .ok x
    | .error y => .error (y ++ ", for field " ++ field)

/-- Source accessor for optional input delegating to the screened
`string` accessor; a failure is re-wrapped with a template-error prefix
carrying the field name. -/
def string_option_unsafe (t : Template) (env : Env) (field : String)
    (template : Option String) : Except String (Option String) :=
  if is_syntax_skip_eval_option t template then .ok (some "") else
  match template with
  | none => .ok none
  | some tv =>
    match string t env field tv with
    | .ok x => .ok (some x)
    | .error y => .error ("field (" ++ field ++ ") template error: " ++ y)

/-- Source `string_option`: gate, delegate, then general-input screening
on a present value. -/
def string_option (t : Template) (env : Env) (field : String)
    (template : Option String) : Except String (Option String) :=
  if is_syntax_skip_eval_option t template then .ok (some "") else
  match string_option_unsafe t env field template with
  | .ok (some x) =>
    match env.screenGeneralInputStrict x with
    | .ok y => .ok (some y)
    | .error z => .error ("field " ++ field ++ ", " ++ z)
  | .ok none => .ok none
  | .error y => .error y

/-- Source `string_option_no_spaces`: `string_option`, then the space
check on a present value. -/
def string_option_no_spaces (t : Template) (env : Env) (field : String)
    (template : Option String) : Except String (Option String) :=
  match string_option t env field template with
  | .error e => .error e
  | .ok prelim =>
    match prelim with
    | some value =>
      if has_spaces value then
        .error ("field (" ++ field ++ "): spaces are not allowed")
      else .ok prelim
    | none => .ok prelim

/-- Source `no_template_string_option_trim`: trim a present value. -/
def no_template_string_option_trim (input : Option String) : Option String :=
  match input with
  | some value => some value.trim
  | none => none

/-- Rust `str::parse::<i64>()`: optional sign, one or more ASCII digits,
value within the signed 64-bit range. -/
def parseI64Rust (s : String) : Option Int :=
  match s.data with
  | [] => none
  | c :: rest =>
    let signNeg : Bool := c == Char.ofNat 45
    let digits : List Char :=
      if c == Char.ofNat 43 || c == Char.ofNat 45 then rest else c :: rest
    if digits.isEmpty then none
    else if digits.all Char.isDigit then
      let mag : Nat := digits.foldl (fun acc d => acc * 10 + (d.toNat - 48)) 0
      let n : Int := if signNeg then -(mag : Int) else (mag : Int)
      if -(2 ^ 63) ≤ n ∧ n ≤ 2 ^ 63 - 1 then some n else none
    else none

/-- Rust `str::parse::<bool>()`: exactly the literals used by Rust's
`FromStr for bool`. -/
def parseBoolRust (s : String) : Option Bool :=
  if s = "true" then some true
  else if s = "false" then some false
  else none

/-- Source `integer`: gate to `0`, else render via `string` and parse as
a signed 64-bit integer. -/
def integer (t : Template) (env : Env) (field template : String) :
    Except String Int :=
  if is_syntax_skip_eval t template then .ok 0 else
  match string t env field template with
  | .error e => .error e
  | .ok st =>
    match parseI64Rust st with
    | some num => .ok num
    | none => .error ("field (" ++ field ++ ") value is not an integer: " ++ st)

/-- Source `integer_option`: gate to `Some(0)`, absent to `None`, else
render and parse. -/
def integer_option (t : Template) (env : Env) (field : String)
    (template : Option String) : Except String (Option Int) :=
  if is_syntax_skip_eval_option t template then .ok (some 0) else
  match template with
  | none => .ok none
  | some tv =>
    match string t env field tv with
    | .error e => .error e
    | .ok st =>
      match parseI64Rust st with
      | some num => .ok (some num)
      | none => .error ("field (" ++ field ++ ") value is not an integer: " ++ st)

/-- Source `boolean`: gate to `false`, else render via `string` and parse
with Rust's `bool` parser. -/
def boolean (t : Template) (env : Env) (field template : String) :
    Except String Bool :=
  if is_syntax_skip_eval t template then .ok false else
  match string t env field template with
  | .error e => .error e
  | .ok st =>
    match parseBoolRust st with
    | some x => .ok x
    | none => .error ("field (" ++ field ++ ") value is not a boolean: " ++ st)

/-- Source `internal_boolean_option`: gate or absence yields the
caller-supplied default. -/
def internal_boolean_option (t : Template) (env : Env) (field : String)
    (template : Option String) (default : Bool) : Except String Bool :=
  if is_syntax_skip_eval_option t template || template.isNone then .ok default else
  match template with
  | none => .ok default
  | some tv =>
    match string t env field tv with
    | .error e => .error e
    | .ok st =>
      match parseBoolRust st with
      | some x => .ok x
      | none => .error ("field (" ++ field ++ ") value is not a boolean: " ++ st)

/-- Source `boolean_option_default_true`. -/
def boolean_option_default_true (t : Template) (env : Env) (field : String)
    (template : Option String) : Except String Bool :=
  internal_boolean_option t env field template true

/-- Source `boolean_option_default_false`. -/
def boolean_option_default_false (t : Template) (env : Env) (field : String)
    (template : Option String) : Except String Bool :=
  internal_boolean_option t env field template false

/-- Source `boolean_option_default_none`: gate or absence yields `None`. -/
def boolean_option_default_none (t : Template) (env : Env) (field : String)
    (template : Option String) : Except String (Option Bool) :=
  if is_syntax_skip_eval_option t template || template.isNone then .ok none else
  match template with
  | none => .ok none
  | some tv =>
    match string t env field tv with
    | .error e => .error e
    | .ok st =>
      match parseBoolRust st with
      | some x => .ok (some x)
      | none => .error ("field (" ++ field ++ ") value is not a boolean: " ++ st)

/-- Source `test_cond`: gate to `true`, else delegate to the conditional
evaluator; its error message is wrapped verbatim. -/
def test_cond (t : Template) (env : Env) (expr : String) : Except String Bool :=
  if is_syntax_skip_eval t expr then .ok true else
  match env.testCondEval expr with
  | .ok x => .ok x
  | .error y => .error y

/-- Unix `Path::is_absolute`: the path begins with the separator. -/
def isAbsolutePath (s : String) : Bool :=
  match s.data with
  | c :: _ => c == Char.ofNat 47
  | [] => false

/-- `PathBuf::push`: an absolute component replaces the path, otherwise
it is joined with the separator. -/
def pathPush (base p : String) : String :=
  if isAbsolutePath p then p
  else if base = "" then p
  else base ++ "/" ++ p

/-- Source `find_sub_path`: gate to the empty path, screen the raw path,
then check existence — at the absolute location when absolute, under
`subdir` when relative. -/
def find_sub_path (t : Template) (env : Env) (subdir field str_path : String) :
    Except String String :=
  if is_syntax_skip_eval t str_path then .ok "" else
  match env.screenPath str_path with
  | .error y => .error (y ++ ", for field: " ++ field)
  | .ok prelim =>
    let path1 := pathPush "" prelim
    if isAbsolutePath path1 then
      if env.isFile path1 then .ok path1
      else .error ("field (" ++ field ++ "): no such file: " ++ str_path)
    else
      let path2 := pathPush (pathPush "" subdir) str_path
      if env.isFile path2 then .ok path2
      else .error ("field field (" ++ field ++ "): no such file: " ++ str_path)

/-- Source `find_template_path`: `find_sub_path` under `templates`. -/
def find_template_path (t : Template) (env : Env) (field str_path : String) :
    Except String String :=
  find_sub_path t env "templates" field str_path

/-- Source `find_file_path`: `find_sub_path` under `files`. -/
def find_file_path (t : Template) (env : Env) (field str_path : String) :
    Except String String :=
  find_sub_path t env "files" field str_path

/-- Decidable equality on `Except`, so concrete accessor results can be
checked by `decide`. -/
instance instDecEqExcept (ε α : Type) [DecidableEq ε] [DecidableEq α] :
    DecidableEq (Except ε α)
  | .ok a, .ok b =>
    if h : a = b then .isTrue (by rw [h])
    else .isFalse (fun he => h (Except.ok.inj he))
  | .ok _, .error _ => .isFalse (fun he => Except.noConfusion he)
  | .error _, .ok _ => .isFalse (fun he => Except.noConfusion he)
  | .error e, .error f =>
    if h : e = f then .isTrue (by rw [h])
    else .isFalse (fun he => h (Except.error.inj he))

/-- Concrete collaborator environment used to instantiate theorems: the
renderer echoes marker-free text, path screening accepts everything,
general-input screening rejects values holding a space, and no local
file exists. -/
def envEcho : Env where
  visitorSyntaxOnly := false
  render := fun template _ => .ok template
  testCondEval := fun _ => .ok true
  screenPath := fun s => .ok s
  screenGeneralInputStrict := fun s =>
    if has_spaces s then .error "invalid characters" else .ok s
  isFile := fun _ => false

/-- Variant of `envEcho` whose renderer resolves every template to the
empty string. -/
def envRenderEmpty : Env :=
  { envEcho with render := fun _ _ => .ok "" }

/-- Variant of `envEcho` in which exactly `files/x.txt` exists as a
regular file. -/
def envFilesX : Env :=
  { envEcho with isFile := fun p => p = "files/x.txt" }

/-- Variant of `envEcho` whose general-input screening accepts every
value unchanged. -/
def envPermissive : Env :=
  { envEcho with screenGeneralInputStrict := fun s => .ok s }

/-- The empty string holds no space character. -/
theorem has_spaces_empty : has_spaces "" = false := rfl

/-- The space predicate is exactly "some character equals U+0020". -/
theorem containsSpaceList_eq_any (l : List Char) :
    containsSpaceList l = l.any (fun c => c == Char.ofNat 32) := by
  induction l with
  | nil => rfl
  | cons c rest ih => simp [containsSpaceList, ih]

/-- C1: the dry-run gate skips real evaluation iff the run is syntax-only
and the raw value contains the template-open marker; a marker-free value
is evaluated for real even in syntax-only mode (every accessor behaves
exactly as in a real run), and an absent optional value never triggers a
skip. -/
theorem gate_skips_iff_syntax_only_and_marker (env : Env) (t : Template)
    (field v : String) (h : contains_vars v = false) :
    (∀ u : Template, ∀ x : String,
      is_syntax_skip_eval u x = ( is_syntax u && contains_vars x))
    ∧ is_syntax_skip_eval_option t none = false
    ∧ string_option t env field none = .ok none
    ∧ integer_option t env field none = .ok none
    ∧ string ⟨true⟩ env field v = string ⟨false⟩ env field v
    ∧ string_unsafe ⟨true⟩ env field v = string_unsafe ⟨false⟩ env field v
    ∧ string_no_spaces ⟨true⟩ env field v = string_no_spaces ⟨false⟩ env field v
    ∧ integer ⟨true⟩ env field v = integer ⟨false⟩ env field v
    ∧ boolean ⟨true⟩ env field v = boolean ⟨false⟩ env field v
    ∧ test_cond ⟨true⟩ env v = test_cond ⟨false⟩ env v
    ∧ path ⟨true⟩ env field v = path ⟨false⟩ env field v
    ∧ find_template_path ⟨true⟩ env field v = find_template_path ⟨false⟩ env field v
    ∧ find_file_path ⟨true⟩ env field v = find_file_path ⟨false⟩ env field v
    ∧ string_option ⟨true⟩ env field (some v) = string_option ⟨false⟩ env field (some v)
    ∧ integer_option ⟨true⟩ env field (some v) = integer_option ⟨false⟩ env field (some v) := by
  have hgate : ∀ b : Bool, is_syntax_skip_eval ⟨b⟩ v = false := by
    intro b
    simp [is_syntax_skip_eval, h]
  have hgateo : ∀ b : Bool, is_syntax_skip_eval_option ⟨b⟩ (some v) = false := by
    intro b
    simp [is_syntax_skip_eval_option, h]
  refine ⟨?_, rfl, rfl, rfl, ?_, ?_, ?_, ?_, ?_, ?_, ?_, ?_, ?_, ?_, ?_⟩
  · intro u x
    simp [is_syntax_skip_eval, Bool.and_comm]
  · simp [string, string_unsafe, template_unsafe_internal, hgate]
  · simp [ string_unsafe, template_unsafe_internal, hgate]
  · simp [string_no_spaces, string, string_unsafe, template_unsafe_internal, hgate]
  · simp [integer, string, string_unsafe, template_unsafe_internal, hgate]
  · simp [boolean, string, string_unsafe, template_unsafe_internal, hgate]
  · simp [test_cond, hgate]
  · simp [path, hgate]
  · simp [find_template_path, find_sub_path, hgate]
  · simp [find_file_path, find_sub_path, hgate]
  · simp [string_option, string_option_unsafe, string, string_unsafe,
      template_unsafe_internal, hgate, hgateo]
  · simp [integer_option, string, string_unsafe, template_unsafe_internal, hgate, hgateo]

/-- Witness for C1 at the marker-free value `"abc"`. -/
theorem gate_skips_iff_syntax_only_and_marker_witness :
    contains_vars "abc" = false
    ∧ string ⟨true⟩ envEcho "f" "abc" = string ⟨false⟩ envEcho "f" "abc" :=
  ⟨by decide,
    (gate_skips_iff_syntax_only_and_marker envEcho ⟨false⟩ "f" "abc"
      (by decide)).2.2.2.2.1⟩

/-- C2: when the gate fires, every accessor returns its fixed placeholder
for any evaluator behaviour and without failing: string family and `path`
give the empty string, `integer` gives `0`, `boolean` gives `false`,
`test_cond` gives `true`, the find-path accessors give the empty path,
and present optional values give `Some("")` resp. `Some(0)`. -/
theorem gate_placeholder_values (t : Template) (env : Env) (field v : String)
    (w : Option String) (h : is_syntax_skip_eval t v = true)
    (hw : is_syntax_skip_eval_option t w = true) :
    string t env field v = .ok ""
    ∧ string_unsafe t env field v = .ok ""
    ∧ string_for_template_module_use_only t env field v = .ok ""
    ∧ string_no_spaces t env field v = .ok ""
    ∧ path t env field v = .ok ""
    ∧ integer t env field v = .ok 0
    ∧ boolean t env field v = .ok false
    ∧ test_cond t env v = .ok true
    ∧ find_template_path t env field v = .ok ""
    ∧ find_file_path t env field v = .ok ""
    ∧ string_option t env field w = .ok (some "")
    ∧ integer_option t env field w = .ok (some 0) := by
  refine ⟨?_, ?_, ?_, ?_, ?_, ?_, ?_, ?_, ?_, ?_, ?_, ?_⟩
  · simp [string, h]
  · simp [ string_unsafe, template_unsafe_internal, h]
  · simp [string_for_template_module_use_only, template_unsafe_internal, h]
  · simp [string_no_spaces, string, h, has_spaces_empty]
  · simp [path, h]
  · simp [integer, h]
  · simp [boolean, h]
  · simp [test_cond, h]
  · simp [find_template_path, find_sub_path, h]
  · simp [find_file_path, find_sub_path, h]
  · simp [string_option, hw]
  · simp [integer_option, hw]

/-- Witness for C2 at a templated value in a syntax-only instance. -/
theorem gate_placeholder_values_witness :
    is_syntax_skip_eval ⟨true⟩ "\x7b\x7bx\x7d\x7d" = true
    ∧ is_syntax_skip_eval_option ⟨true⟩ (some "\x7b\x7bx\x7d\x7d") = true
    ∧ integer ⟨true⟩ envEcho "f" "\x7b\x7bx\x7d\x7d" = .ok 0 :=
  ⟨by decide, by decide,
    (gate_placeholder_values ⟨true⟩ envEcho "f" "\x7b\x7bx\x7d\x7d"
      (some "\x7b\x7bx\x7d\x7d") (by decide) (by decide)).2.2.2.2.2.1⟩

/-- C3 counterexample: `string_option_unsafe` is not the unscreened
counterpart of ` string_unsafe`: on the present, non-gated raw value
`"a b"`, ` string_unsafe` renders `"a b"` successfully, yet
`string_option_unsafe` applies general-input screening (it delegates to
the screened `string` accessor) and fails instead of returning
`Some "a b"`. -/
theorem string_option_unsafe_screening_counterexample :
    string_unsafe ⟨false⟩ envEcho "f" "a b" = .ok "a b"
    ∧ string_option_unsafe ⟨false⟩ envEcho "f" (some "a b") =
        .error "field (f) template error: field f, invalid characters"
    ∧ string_option_unsafe ⟨false⟩ envEcho "f" (some "a b") ≠ .ok (some "a b") :=
  ⟨rfl, rfl, by decide⟩

/-- C3 (amended): `string_option_unsafe` is the optional-input
counterpart of the screened `string` accessor: absent raw value gives
`Ok(None)`; a gated present value gives `Ok(Some(""))`; a present,
non-gated value delegates to `string` (so general-input screening is
applied), wrapping a success in `Some` and re-wrapping a failure with a
field-naming template-error prefix. -/
theorem string_option_unsafe_delegates_to_screened_string (t : Template)
    (env : Env) (field v : String) :
    string_option_unsafe t env field none = .ok none
    ∧ (is_syntax_skip_eval_option t (some v) = true →
        string_option_unsafe t env field (some v) = .ok (some ""))
    ∧ (is_syntax_skip_eval_option t (some v) = false →
        (∀ x, string t env field v = .ok x →
          string_option_unsafe t env field (some v) = .ok (some x))
        ∧ (∀ y, string t env field v = .error y →
          string_option_unsafe t env field (some v) =
            .error ("field (" ++ field ++ ") template error: " ++ y))) := by
  refine ⟨rfl, ?_, ?_⟩
  · intro h
    simp [ string_option_unsafe, h]
  · intro h
    constructor
    · intro x hx
      simp [ string_option_unsafe, h, hx]
    · intro y hy
      simp [ string_option_unsafe, h, hy]

/-- Witness for the amended C3 at the present, non-gated value `"ab"`. -/
theorem string_option_unsafe_delegates_witness :
    is_syntax_skip_eval_option ⟨false⟩ (some "ab") = false
    ∧ string ⟨false⟩ envEcho "f" "ab" = .ok "ab"
    ∧ string_option_unsafe ⟨false⟩ envEcho "f" (some "ab") = .ok (some "ab") :=
  ⟨by decide, rfl,
    ((string_option_unsafe_delegates_to_screened_string ⟨false⟩ envEcho "f"
      "ab").2.2 (by decide)).1 "ab" rfl⟩

/-- C4: evaluation of `find_sub_path` at its two missing-file branches.
The relative branch emits the doubled prefix
`"field field ({field}): no such file: {path}"`, diverging from the
absolute branch's `"field ({field}): no such file: {path}"`; the
relative resolution itself is `{subdirectory}/{path}`. -/
theorem find_sub_path_relative_branch_message :
    find_file_path ⟨false⟩ envEcho "src" "x.txt" =
        .error "field field (src): no such file: x.txt"
    ∧ find_file_path ⟨false⟩ envFilesX "src" "x.txt" = .ok "files/x.txt"
    ∧ find_file_path ⟨false⟩ envEcho "src" "/etc/x" =
        .error "field (src): no such file: /etc/x" :=
  ⟨rfl, rfl, rfl⟩

/-- C5: the `path` accessor performs no filesystem access (its result is
independent of the file-existence oracle), returns the empty string on a
gated skip, and otherwise renders, screens the rendered string, and
fails only on render or screening failures — a screened success is
returned with no existence check. -/
theorem path_never_touches_filesystem (t : Template) (env : Env)
    (field v : String) :
    (∀ fs : String → Bool, path t { env with isFile := fs } field v = path t env field v)
    ∧ (is_syntax_skip_eval t v = true → path t env field v = .ok "")
    ∧ (is_syntax_skip_eval t v = false →
        (∀ r x, env.render v BlendTarget.NotTemplateModule = .ok r →
          env.screenPath r = .ok x → path t env field v = .ok x)
        ∧ (∀ r y, env.render v BlendTarget.NotTemplateModule = .ok r →
          env.screenPath r = .error y →
          path t env field v = .error (y ++ ", for field " ++ field))
        ∧ (∀ y, env.render v BlendTarget.NotTemplateModule = .error y →
          path t env field v = .error y)) := by
  refine ⟨fun fs => rfl, ?_, ?_⟩
  · intro h
    simp [path, h]
  · intro h
    refine ⟨?_, ?_, ?_⟩
    · intro r x hr hx
      simp [path, unwrap_string_result, h, hr, hx]
    · intro r y hr hy
      simp [path, unwrap_string_result, h, hr, hy]
    · intro y hy
      simp [path, unwrap_string_result, h, hy]

/-- Witness for C5: a rendered and screened value is returned as-is even
though no file exists in `envEcho`. -/
theorem path_never_touches_filesystem_witness :
    is_syntax_skip_eval ⟨false⟩ "ab" = false
    ∧ envEcho.render "ab" BlendTarget.NotTemplateModule = .ok "ab"
    ∧ envEcho.screenPath "ab" = .ok "ab"
    ∧ path ⟨false⟩ envEcho "f" "ab" = .ok "ab" :=
  ⟨by decide, rfl, rfl,
    ((path_never_touches_filesystem ⟨false⟩ envEcho "f" "ab").2.2
      (by decide)).1 "ab" "ab" rfl rfl⟩

/-- C6: for a non-gated raw value, a render that succeeds with the empty
string makes both `string` and ` string_unsafe` fail with
`"evaluated to empty string"`, and neither ever returns an empty string
from a real render (for `string` under the collaborator contract that
successful general-input screening returns its input unchanged). -/
theorem empty_render_is_failure (t : Template) (env : Env) (field v : String)
    (h : is_syntax_skip_eval t v = false) :
    (env.render v BlendTarget.NotTemplateModule = .ok "" →
      string_unsafe t env field v = .error "evaluated to empty string"
      ∧ string t env field v = .error "evaluated to empty string")
    ∧ (∀ s, string_unsafe t env field v = .ok s → s ≠ "")
    ∧ ((∀ a b, env.screenGeneralInputStrict a = .ok b → b = a) →
        ∀ s, string t env field v = .ok s → s ≠ "") := by
  have h2 : ∀ s, string_unsafe t env field v = .ok s → s ≠ "" := by
    intro s hs hemp
    subst hemp
    cases henv : env.render v BlendTarget.NotTemplateModule with
    | error y =>
      simp [ string_unsafe, template_unsafe_internal, h, henv,
        unwrap_string_result] at hs
    | ok r =>
      by_cases hr : r = ""
      · simp [ string_unsafe, template_unsafe_internal, h, henv,
          unwrap_string_result, hr] at hs
      · simp [ string_unsafe, template_unsafe_internal, h, henv,
          unwrap_string_result, hr] at hs
  refine ⟨?_, h2, ?_⟩
  · intro hr
    constructor
    · simp [ string_unsafe, template_unsafe_internal, h, hr]
    · simp [string, string_unsafe, template_unsafe_internal, h, hr]
  · intro hscr s hs hemp
    subst hemp
    cases hsu : string_unsafe t env field v with
    | error y => simp [string, h, hsu] at hs
    | ok x =>
      have hx : x ≠ "" := h2 x hsu
      cases hscx : env.screenGeneralInputStrict x with
      | error z => simp [string, h, hsu, hscx] at hs
      | ok b =>
        simp [string, h, hsu, hscx] at hs
        exact hx ((hscr x b hscx).symm.trans hs)

/-- Witness for C6: a template rendering to the empty string fails. -/
theorem empty_render_is_failure_witness :
    is_syntax_skip_eval ⟨false⟩ "x" = false
    ∧ envRenderEmpty.render "x" BlendTarget.NotTemplateModule = .ok ""
    ∧ string_unsafe ⟨false⟩ envRenderEmpty "f" "x" =
        .error "evaluated to empty string" :=
  ⟨by decide, rfl,
    ((empty_render_is_failure ⟨false⟩ envRenderEmpty "f" "x" (by decide)).1
      rfl).1⟩

/-- C7: `boolean` renders via `string` and accepts exactly the literals
`"true"` and `"false"`; any other rendered text fails with
`"field ({field}) value is not a boolean: {value}"`; a gated skip
returns `false`. -/
theorem boolean_accepts_exactly_true_false (t : Template) (env : Env)
    (field v st : String) :
    (is_syntax_skip_eval t v = true → boolean t env field v = .ok false)
    ∧ (is_syntax_skip_eval t v = false → string t env field v = .ok st →
        (st = "true" → boolean t env field v = .ok true)
        ∧ (st = "false" → boolean t env field v = .ok false)
        ∧ (st ≠ "true" → st ≠ "false" →
          boolean t env field v =
            .error ("field (" ++ field ++ ") value is not a boolean: " ++ st))) := by
  constructor
  · intro h
    simp [boolean, h]
  · intro h hs
    refine ⟨?_, ?_, ?_⟩
    · intro h1
      subst h1
      simp [boolean, h, hs, parseBoolRust]
    · intro h1
      subst h1
      simp [boolean, h, hs, parseBoolRust]
    · intro h1 h2
      simp [boolean, h, hs, parseBoolRust, h1, h2]

/-- Witness for C7: the yes/no alias `"yes"` is rejected. -/
theorem boolean_accepts_exactly_true_false_witness :
    is_syntax_skip_eval ⟨false⟩ "yes" = false
    ∧ string ⟨false⟩ envEcho "f" "yes" = .ok "yes"
    ∧ boolean ⟨false⟩ envEcho "f" "yes" =
        .error "field (f) value is not a boolean: yes" :=
  ⟨by decide, rfl,
    ((boolean_accepts_exactly_true_false ⟨false⟩ envEcho "f" "yes" "yes").2
      (by decide) rfl).2.2 (by decide) (by decide)⟩

/-- C8: the syntax-only flag is snapshotted once at construction from the
run state's visitor into the instance; every gate decision and every
accessor result is insensitive to any later value of the run state's
visitor flag — only the construction-time snapshot matters. -/
theorem syntax_only_flag_snapshot (env envLater : Env) (b : Bool)
    (field v : String) (w : Option String) :
    is_syntax (Template.new env) = env.visitorSyntaxOnly
    ∧ Template.new { env with visitorSyntaxOnly := b } = Template.mk b
    ∧ is_syntax_skip_eval (Template.new env) v
        = (contains_vars v && env.visitorSyntaxOnly)
    ∧ string (Template.new env) { envLater with visitorSyntaxOnly := b } field v
        = string (Template.new env) envLater field v
    ∧ string_option (Template.new env) { envLater with visitorSyntaxOnly := b } field w
        = string_option (Template.new env) envLater field w
    ∧ integer (Template.new env) { envLater with visitorSyntaxOnly := b } field v
        = integer (Template.new env) envLater field v
    ∧ boolean (Template.new env) { envLater with visitorSyntaxOnly := b } field v
        = boolean (Template.new env) envLater field v
    ∧ test_cond (Template.new env) { envLater with visitorSyntaxOnly := b } v
        = test_cond (Template.new env) envLater v
    ∧ path (Template.new env) { envLater with visitorSyntaxOnly := b } field v
        = path (Template.new env) envLater field v
    ∧ find_template_path (Template.new env) { envLater with visitorSyntaxOnly := b } field v
        = find_template_path (Template.new env) envLater field v
    ∧ find_file_path (Template.new env) { envLater with visitorSyntaxOnly := b } field v
        = find_file_path (Template.new env) envLater field v :=
  ⟨rfl, rfl, rfl, rfl, rfl, rfl, rfl, rfl, rfl, rfl, rfl⟩

/-- C9: unlike `string` and ` string_unsafe`, the `path` accessor does
not apply the empty-render failure rule: a non-gated template rendering
to the empty string is screened and returned as a success (when path
screening accepts it), while the string accessors fail with
`"evaluated to empty string"` on the same input. -/
theorem path_allows_empty_render (t : Template) (env : Env) (field v s : String)
    (h : is_syntax_skip_eval t v = false)
    (hr : env.render v BlendTarget.NotTemplateModule = .ok "")
    (hs : env.screenPath "" = .ok s) :
    path t env field v = .ok s
    ∧ string_unsafe t env field v = .error "evaluated to empty string"
    ∧ string t env field v = .error "evaluated to empty string" := by
  refine ⟨?_, ?_, ?_⟩
  · simp [path, unwrap_string_result, h, hr, hs]
  · simp [ string_unsafe, template_unsafe_internal, h, hr]
  · simp [string, string_unsafe, template_unsafe_internal, h, hr]

/-- Witness for C9: with an empty render and identity path screening,
`path` succeeds with `""` where the string accessors fail. -/
theorem path_allows_empty_render_witness :
    (is_syntax_skip_eval ⟨false⟩ "x" = false
      ∧ envRenderEmpty.render "x" BlendTarget.NotTemplateModule = .ok ""
      ∧ envRenderEmpty.screenPath "" = .ok "")
    ∧ path ⟨false⟩ envRenderEmpty "f" "x" = .ok "" :=
  ⟨⟨by decide, rfl, rfl⟩,
    (path_allows_empty_render ⟨false⟩ envRenderEmpty "f" "x" ""
      (by decide) rfl rfl).1⟩

/-- C10: the space check behind the no-spaces accessors detects exactly
the character U+0020: `has_spaces` holds iff some character of the value
is a space, a value containing a space makes the no-spaces accessors
fail with `"field ({field}): spaces are not allowed"`, and a value with
no space character (even one holding tabs or newlines) passes. -/
theorem space_check_detects_only_space_char (t : Template) (env : Env)
    (field raw val w : String) :
    has_spaces w = w.data.any (fun c => c == Char.ofNat 32)
    ∧ (string t env field raw = .ok val → has_spaces val = true →
        string_no_spaces t env field raw =
          .error ("field (" ++ field ++ "): spaces are not allowed"))
    ∧ (string t env field raw = .ok val → has_spaces val = false →
        string_no_spaces t env field raw = .ok val)
    ∧ (string_option t env field (some raw) = .ok (some val) →
        has_spaces val = true →
        string_option_no_spaces t env field (some raw) =
          .error ("field (" ++ field ++ "): spaces are not allowed"))
    ∧ (string_option t env field (some raw) = .ok (some val) →
        has_spaces val = false →
        string_option_no_spaces t env field (some raw) = .ok (some val)) := by
  refine ⟨containsSpaceList_eq_any w.data, ?_, ?_, ?_, ?_⟩
  · intro hv hsp
    simp [string_no_spaces, hv, hsp]
  · intro hv hsp
    simp [string_no_spaces, hv, hsp]
  · intro hv hsp
    simp [string_option_no_spaces, hv, hsp]
  · intro hv hsp
    simp [string_option_no_spaces, hv, hsp]

/-- Witness for C10: a space is rejected while a tab passes the space
check. -/
theorem space_check_detects_only_space_char_witness :
    (string ⟨false⟩ envPermissive "f" "a b" = .ok "a b"
      ∧ has_spaces "a b" = true
      ∧ string_no_spaces ⟨false⟩ envPermissive "f" "a b" =
          .error "field (f): spaces are not allowed")
    ∧ (string ⟨false⟩ envPermissive "f" "a\tb" = .ok "a\tb"
      ∧ has_spaces "a\tb" = false
      ∧ string_no_spaces ⟨false⟩ envPermissive "f" "a\tb" = .ok "a\tb") :=
  ⟨⟨rfl, by decide,
    (space_check_detects_only_space_char ⟨false⟩ envPermissive "f" "a b"
      "a b" "").2.1 rfl (by decide)⟩,
   ⟨rfl, by decide,
    (space_check_detects_only_space_char ⟨false⟩ envPermissive "f" "a\tb"
      "a\tb" "").2.2.1 rfl (by decide)⟩⟩

end Jetporch
